import Mathlib

/-!
Verification of the Choppinzskys backend (src/main.py) against its
specification. The HTTP handlers in main.py are embedded as pure Lean
functions; the external collaborators `database.py` (create_document,
get_documents, db) and `schemas.py` (Inquiry), which are not part of the
source tree, are modelled from the specification where a claim needs them.
-/

/-- A JSON-ish value as it appears in request/response documents:
a string, a store-internal object identifier, or Python None. -/
inductive Value where
  | str : String → Value
  | oid : Nat → Value
  | none : Value
deriving DecidableEq, Repr

namespace Choppinzskys

/-- A document: an ordered association list of field names to values,
mirroring a Python dict produced by the store or a JSON body. -/
abbrev Doc := List (String × Value)

/-- Python `str(x)` applied to the result of `doc.get("_id")`:
`str(None)` is the literal string "None"; an ObjectId renders as a
non-empty textual form. -/
def pyStr : Option Value → String
  | Option.none => "None"
  | some Value.none => "None"
  | some (Value.str s) => s
  | some (Value.oid n) => "ObjectId-" ++ toString n

/-- Python dict assignment `d[k] = v`: overwrites the value in place when
the key is present, otherwise appends the new key at the end. -/
def dictSet (d : Doc) (k : String) (v : Value) : Doc :=
  if d.any (fun kv => kv.1 == k) then
    d.map (fun kv => if kv.1 == k then (k, v) else kv)
  else d ++ [(k, v)]

/-- `normalize` from main.py lines 194-197: drop the store-internal
`_id` field and set `id` to `str(doc.get("_id"))`. -/
def normalize (doc : Doc) : Doc :=
  let d := doc.filter (fun kv => kv.1 != "_id")
  dictSet d "id" (Value.str (pyStr (List.lookup "_id" doc)))

/-- An HTTPException as raised by the handlers (status code and detail
message); FastAPI turns it into an error response with that status. -/
structure HTTPException where
  status_code : Nat
  detail : String
deriving DecidableEq, Repr

/-- The body of `POST /api/inquiries` (main.py lines 183-187), given the
outcome of the `create_document` call: on success a
`{"status": "ok", "id": inserted_id}` body, on a store exception an
HTTPException with status 500 and the exception text as detail. -/
def create_inquiry (createResult : Except String String) :
    Except HTTPException Doc :=
  match createResult with
  | Except.ok insertedId =>
      Except.ok [("status", Value.str "ok"), ("id", Value.str insertedId)]
  | Except.error e => Except.error ⟨500, e⟩

/-- The body of `GET /api/inquiries` (main.py lines 191-200), given the
outcome of the `get_documents` call: on success each document is
normalized, on a store exception an HTTPException with status 500 and the
exception text as detail. -/
def list_inquiries (getResult : Except String (List Doc)) :
    Except HTTPException (List Doc) :=
  match getResult with
  | Except.ok docs => Except.ok (docs.map normalize)
  | Except.error e => Except.error ⟨500, e⟩

/-- Modelled from the spec: `schemas.py` is not under src/. The Inquiry
record shape ("a user-submitted record with at minimum a contact field
and a message field"; the worked example uses name, contact, message). -/
structure Inquiry where
  name : String
  contact : String
  message : String
deriving DecidableEq, Repr

/-- The fields of an Inquiry as a stored document, before the store
attaches its identifier. -/
def inquiryFields (q : Inquiry) : Doc :=
  [("name", Value.str q.name), ("contact", Value.str q.contact),
   ("message", Value.str q.message)]

/-- Modelled from the spec: `schemas.py` is not under src/. Validation of
a request body against the Inquiry schema: "Any field missing or of the
wrong type fails validation". -/
def parseInquiry (payload : Doc) : Option Inquiry :=
  match List.lookup "name" payload, List.lookup "contact" payload,
        List.lookup "message" payload with
  | some (Value.str n), some (Value.str c), some (Value.str m) =>
      some ⟨n, c, m⟩
  | _, _, _ => Option.none

/-- The document store state: the persisted inquiry collection and the
next store-assigned identifier. -/
structure Store where
  inquiries : List Doc
  nextId : Nat
deriving DecidableEq, Repr

/-- Modelled from the spec: `database.py` is not under src/.
`create_document(collection, record)` "inserts one document into the
named collection" and returns "the store-assigned unique identifier for
the new document", normalized to a string at the adapter boundary. -/
def create_document (store : Store) (q : Inquiry) : Store × String :=
  ({ inquiries :=
       store.inquiries ++ [inquiryFields q ++ [("_id", Value.oid store.nextId)]],
     nextId := store.nextId + 1 },
   pyStr (some (Value.oid store.nextId)))

/-- Modelled from the spec: `database.py` is not under src/.
`get_documents(collection, limit)` returns "a sequence of at most
`limit` documents" of the collection. -/
def get_documents (store : Store) (limit : Nat) : List Doc :=
  store.inquiries.take limit

/-- The full `POST /api/inquiries` pipeline: the framework validates the
body against the Inquiry schema before the handler runs (a failure is a
422 client error and the handler is never entered); on success the
handler calls `create_document` and builds its response. The result is
the final (status, body) pair and the store state after the request. -/
def post_inquiries (payload : Doc) (store : Store) : (Nat × Doc) × Store :=
  match parseInquiry payload with
  | Option.none => ((422, [("detail", Value.str "validation error")]), store)
  | some q =>
      let r := create_document store q
      match create_inquiry (Except.ok r.2) with
      | Except.ok body => ((200, body), r.1)
      | Except.error e =>
          ((e.status_code, [("detail", Value.str e.detail)]), r.1)

/-- The full `GET /api/inquiries?limit=N` pipeline over a store in its
normal state. -/
def get_inquiries (limit : Nat) (store : Store) :
    Except HTTPException (List Doc) :=
  list_inquiries (Except.ok (get_documents store limit))

/-- `GET /api/inquiries` without a limit parameter: the handler signature
`limit: int = 10` supplies the default. -/
def get_inquiries_default (store : Store) : Except HTTPException (List Doc) :=
  get_inquiries 10 store

/-- `MenuItem` from main.py lines 73-78. -/
structure MenuItem where
  id : String
  name : String
  description : String
  image : String
  category : String
deriving DecidableEq, Repr

/-- `MenuCategory` from main.py lines 80-83. -/
structure MenuCategory where
  key : String
  title : String
  items : List MenuItem
deriving DecidableEq, Repr

/-- The static catalog `MENU_DATA` from main.py lines 86-175, verbatim. -/
def MENU_DATA : List MenuCategory :=
  [{ key := "african", title := "African Delights",
     items :=
      [{ id := "puff-puff", name := "Puff Puff",
         description := "Golden, fluffy bites lightly dusted with sugar.",
         image := "https://images.unsplash.com/photo-1617191518205-29c76d7d6672?q=80&w=1400&auto=format&fit=crop",
         category := "African Delights" },
       { id := "akara", name := "Akara",
         description := "Crisp bean fritters with a soft, fragrant center.",
         image := "https://images.unsplash.com/photo-1604908553982-57e1bdf4cf0f?q=80&w=1400&auto=format&fit=crop",
         category := "African Delights" },
       { id := "fried-yam", name := "Fried Yam",
         description := "Hearty yam chips, golden and perfectly seasoned.",
         image := "https://images.unsplash.com/photo-1547592180-85f173990554?q=80&w=1400&auto=format&fit=crop",
         category := "African Delights" },
       { id := "plantain", name := "Plantain",
         description := "Sweet ripe plantain slices, caramelized to perfection.",
         image := "https://images.unsplash.com/photo-1543332164-6e82f355badc?q=80&w=1400&auto=format&fit=crop",
         category := "African Delights" }] },
   { key := "pastries", title := "Savory Pastries & Rolls",
     items :=
      [{ id := "samosa", name := "Samosa",
         description := "Crisp pastry stuffed with spiced vegetables or meat.",
         image := "https://images.unsplash.com/photo-1683021712492-27cf3ad5f222?q=80&w=1400&auto=format&fit=crop",
         category := "Savory Pastries & Rolls" },
       { id := "spring-rolls", name := "Spring Rolls",
         description := "Delicate rolls with a vibrant vegetable filling.",
         image := "https://images.unsplash.com/photo-1512058564366-18510be2db19?q=80&w=1400&auto=format&fit=crop",
         category := "Savory Pastries & Rolls" },
       { id := "meat-pie", name := "Meat Pie",
         description := "Buttery pastry with a rich, savory filling.",
         image := "https://images.unsplash.com/photo-1541781286675-7b3c9817e3d5?q=80&w=1400&auto=format&fit=crop",
         category := "Savory Pastries & Rolls" },
       { id := "fish-roll", name := "Fish Roll",
         description := "Flaky pastry embracing spiced fish.",
         image := "https://images.unsplash.com/photo-1541781774459-bb2af2f05b55?q=80&w=1400&auto=format&fit=crop",
         category := "Savory Pastries & Rolls" },
       { id := "chicken-roll", name := "Chicken Roll",
         description := "Tender chicken seasoned and wrapped in golden pastry.",
         image := "https://images.unsplash.com/photo-1543336661-08fc734e01d2?q=80&w=1400&auto=format&fit=crop",
         category := "Savory Pastries & Rolls" }] },
   { key := "global", title := "Global Favourites",
     items :=
      [{ id := "potato-swirls", name := "Potato Swirls",
         description := "Fun, crispy swirls with a fluffy potato center.",
         image := "https://images.unsplash.com/photo-1551183053-bf91a1d81141?q=80&w=1400&auto=format&fit=crop",
         category := "Global Favourites" }] }]

/-- `GET /api/menu` (main.py lines 177-179), written over the full
observable server state (the store) to make any mutation visible: the
handler only reads the static catalog and returns it. -/
def get_menu (s : Store) : List MenuCategory × Store :=
  (MENU_DATA, s)

/-- The state of the `database` module as seen by `GET /test`: the
`from database import db` statement may fail with ImportError or another
exception, or yield `db` as None, or yield a live handle. A live handle
may or may not expose a `name` attribute, and its
`list_collection_names()` call either returns the collection names or
raises with some message. `database.py` is not under src/, so these are
exactly the outcomes main.py lines 40-61 distinguish. -/
inductive DbState where
  | importError : DbState
  | raisesOnImport : String → DbState
  | dbNone : DbState
  | live : Bool → String → Except String (List String) → DbState
deriving Repr

/-- The process environment as read by `GET /test`: the values of the
DATABASE_URL and DATABASE_NAME variables (`Option.none` when unset). -/
structure Env where
  database_url : Option String
  database_name : Option String
deriving DecidableEq, Repr

/-- Python truthiness of an `os.getenv` result: None and the empty
string are falsy, any other string is truthy. -/
def getenvTruthy : Option String → Bool
  | Option.none => false
  | some s => s != ""

/-- The response dict built by `test_database` (main.py lines 31-38):
`database_url` and `database_name` start out as Python None and are
later assigned strings, so they carry `Value`. -/
structure TestResponse where
  backend : String
  database : String
  database_url : Value
  database_name : Value
  connection_status : String
  collections : List String
deriving DecidableEq, Repr

/-- `test_database` from main.py lines 28-67: the initial response dict,
updated through the try/except ladder according to the database module
state, then `database_url`/`database_name` unconditionally overwritten
(lines 63-65) from the environment. Every branch ends in a plain
return of the response dict. -/
def test_database (dbs : DbState) (env : Env) : TestResponse :=
  let r0 : TestResponse :=
    { backend := "✅ Running", database := "❌ Not Available",
      database_url := Value.none, database_name := Value.none,
      connection_status := "Not Connected", collections := [] }
  let r1 :=
    match dbs with
    | DbState.importError =>
        { r0 with database :=
            "❌ Database module not found (run enable-database first)" }
    | DbState.raisesOnImport msg =>
        { r0 with database := "❌ Error: " ++ msg.take 50 }
    | DbState.dbNone =>
        { r0 with database := "⚠️  Available but not initialized" }
    | DbState.live hasName nm listResult =>
        let r := { r0 with
          database := "✅ Available",
          database_url := Value.str "✅ Configured",
          database_name := Value.str (if hasName then nm else "✅ Connected"),
          connection_status := "Connected" }
        match listResult with
        | Except.ok cols =>
            { r with collections := cols.take 10,
                     database := "✅ Connected & Working" }
        | Except.error e =>
            { r with database := "⚠️  Connected but Error: " ++ e.take 50 }
  { r1 with
    database_url :=
      Value.str (if getenvTruthy env.database_url then "✅ Set" else "❌ Not Set"),
    database_name :=
      Value.str (if getenvTruthy env.database_name then "✅ Set" else "❌ Not Set") }

/-- `GET /test` as the framework sees it: the handler body never raises,
so the route always produces a 200 response carrying the diagnostic
object. -/
def test_route (dbs : DbState) (env : Env) :
    Except HTTPException (Nat × TestResponse) :=
  Except.ok (200, test_database dbs env)

/-! Association-list lemmas used to reason about `normalize`. -/

theorem lookup_filterId_of_ne (k : String) (hk : k ≠ "_id") (l : Doc) :
    List.lookup k (l.filter (fun kv => kv.1 != "_id")) = List.lookup k l := by
  induction l with
  | nil => rfl
  | cons p t ih =>
    obtain ⟨a, v⟩ := p
    by_cases ha : a = "_id"
    · subst ha
      have hne : (k == "_id") = false := by simpa using hk
      have hdrop : (("_id", v) :: t).filter (fun kv => kv.1 != "_id") =
          t.filter (fun kv => kv.1 != "_id") := by
        simp [List.filter_cons]
      rw [hdrop, ih]
      simp [List.lookup, hne]
    · have hkeep : ((a, v) :: t).filter (fun kv => kv.1 != "_id") =
          (a, v) :: t.filter (fun kv => kv.1 != "_id") := by
        simp [List.filter_cons, ha]
      rw [hkeep]
      by_cases hka : (k == a) = true
      · simp [List.lookup, hka]
      · have hka2 : (k == a) = false := by simpa using hka
        simp only [List.lookup, hka2]
        exact ih

theorem lookup_id_filterId (l : Doc) :
    List.lookup "_id" (l.filter (fun kv => kv.1 != "_id")) = Option.none := by
  induction l with
  | nil => rfl
  | cons p t ih =>
    obtain ⟨a, v⟩ := p
    by_cases ha : a = "_id"
    · subst ha
      have hdrop : (("_id", v) :: t).filter (fun kv => kv.1 != "_id") =
          t.filter (fun kv => kv.1 != "_id") := by
        simp [List.filter_cons]
      rw [hdrop, ih]
    · have h1 : ("_id" == a) = false := by
        simpa using fun h => ha h.symm
      have hkeep : ((a, v) :: t).filter (fun kv => kv.1 != "_id") =
          (a, v) :: t.filter (fun kv => kv.1 != "_id") := by
        simp [List.filter_cons, ha]
      rw [hkeep]
      simp only [List.lookup, h1]
      exact ih

theorem lookup_overwrite_self (k : String) (v : Value) (d : Doc)
    (hany : d.any (fun kv => kv.1 == k) = true) :
    List.lookup k (d.map (fun kv => if kv.1 == k then (k, v) else kv)) =
      some v := by
  induction d with
  | nil => simp at hany
  | cons p t ih =>
    obtain ⟨a, b⟩ := p
    simp only [List.map_cons]
    by_cases ha : a = k
    · rw [if_pos (show ((a, b).1 == k) = true by simpa using ha)]
      simp [List.lookup]
    · rw [if_neg (show ¬ ((a, b).1 == k) = true by simpa using ha)]
      have h1 : (a == k) = false := by simpa using ha
      have h2 : (k == a) = false := by
        simpa using fun h => ha h.symm
      have hany2 : t.any (fun kv => kv.1 == k) = true := by
        simp only [List.any_cons, h1, Bool.false_or] at hany
        exact hany
      simp only [List.lookup, h2]
      exact ih hany2

theorem lookup_overwrite_ne (k k' : String) (hk : k' ≠ k) (v : Value)
    (d : Doc) :
    List.lookup k' (d.map (fun kv => if kv.1 == k then (k, v) else kv)) =
      List.lookup k' d := by
  induction d with
  | nil => rfl
  | cons p t ih =>
    obtain ⟨a, b⟩ := p
    simp only [List.map_cons]
    by_cases ha : a = k
    · rw [if_pos (show ((a, b).1 == k) = true by simpa using ha)]
      subst ha
      have h2 : (k' == a) = false := by simpa using hk
      simp only [List.lookup, h2]
      exact ih
    · rw [if_neg (show ¬ ((a, b).1 == k) = true by simpa using ha)]
      by_cases hka : (k' == a) = true
      · simp [List.lookup, hka]
      · have hka2 : (k' == a) = false := by simpa using hka
        simp only [List.lookup, hka2]
        exact ih

theorem lookup_append_single_self (k : String) (v : Value) (d : Doc)
    (hnone : List.lookup k d = Option.none) :
    List.lookup k (d ++ [(k, v)]) = some v := by
  induction d with
  | nil => simp [List.lookup]
  | cons p t ih =>
    obtain ⟨a, b⟩ := p
    by_cases hka : (k == a) = true
    · simp [List.lookup, hka] at hnone
    · have hka2 : (k == a) = false := by simpa using hka
      have hnone2 : List.lookup k t = Option.none := by
        simpa [List.lookup, hka2] using hnone
      simp only [List.cons_append, List.lookup, hka2]
      exact ih hnone2

theorem lookup_append_single_ne (k k' : String) (hk : k' ≠ k) (v : Value)
    (d : Doc) :
    List.lookup k' (d ++ [(k, v)]) = List.lookup k' d := by
  induction d with
  | nil =>
    have h2 : (k' == k) = false := by simpa using hk
    simp [List.lookup, h2]
  | cons p t ih =>
    obtain ⟨a, b⟩ := p
    by_cases hka : (k' == a) = true
    · simp [List.cons_append, List.lookup, hka]
    · have hka2 : (k' == a) = false := by simpa using hka
      simp only [List.cons_append, List.lookup, hka2]
      exact ih

theorem lookup_none_of_any_false (k : String) (d : Doc)
    (hany : d.any (fun kv => kv.1 == k) = false) :
    List.lookup k d = Option.none := by
  induction d with
  | nil => rfl
  | cons p t ih =>
    obtain ⟨a, b⟩ := p
    simp only [List.any_cons, Bool.or_eq_false_iff] at hany
    obtain ⟨h1, hany2⟩ := hany
    have h2 : (k == a) = false := by
      have hne : a ≠ k := by simpa using h1
      simpa using fun h => hne h.symm
    simp only [List.lookup, h2]
    exact ih hany2

theorem lookup_dictSet_self (k : String) (v : Value) (d : Doc) :
    List.lookup k (dictSet d k v) = some v := by
  rw [dictSet]
  by_cases hany : d.any (fun kv => kv.1 == k) = true
  · rw [if_pos hany]
    exact lookup_overwrite_self k v d hany
  · rw [if_neg hany]
    exact lookup_append_single_self k v d
      (lookup_none_of_any_false k d (Bool.eq_false_iff.mpr hany))

theorem lookup_dictSet_ne (k k' : String) (hk : k' ≠ k) (v : Value) (d : Doc) :
    List.lookup k' (dictSet d k v) = List.lookup k' d := by
  rw [dictSet]
  by_cases hany : d.any (fun kv => kv.1 == k) = true
  · rw [if_pos hany]
    exact lookup_overwrite_ne k k' hk v d
  · rw [if_neg hany]
    exact lookup_append_single_ne k k' hk v d

/-! Facts about `normalize`. -/

theorem normalize_lookup_id (doc : Doc) :
    List.lookup "id" (normalize doc) =
      some (Value.str (pyStr (List.lookup "_id" doc))) := by
  simp only [normalize]
  exact lookup_dictSet_self "id" _ _

theorem normalize_lookup_store_id (doc : Doc) :
    List.lookup "_id" (normalize doc) = Option.none := by
  simp only [normalize]
  rw [lookup_dictSet_ne "id" "_id" (by decide) _ _]
  exact lookup_id_filterId doc

theorem normalize_lookup_other (doc : Doc) (k : String) (h1 : k ≠ "_id")
    (h2 : k ≠ "id") :
    List.lookup k (normalize doc) = List.lookup k doc := by
  simp only [normalize]
  rw [lookup_dictSet_ne "id" k h2 _ _]
  exact lookup_filterId_of_ne k h1 doc

/-- The string form of a store-assigned identifier is never empty. -/
theorem pyStr_oid_ne_empty (n : Nat) : pyStr (some (Value.oid n)) ≠ "" := by
  intro h
  have hlen : (pyStr (some (Value.oid n))).length = 0 := by
    rw [h]
    rfl
  have heq : pyStr (some (Value.oid n)) = "ObjectId-" ++ toString n := rfl
  rw [heq, String.length_append] at hlen
  have h9 : ("ObjectId-" : String).length = 9 := rfl
  omega

/-- C1: for every valid Inquiry payload, POST /api/inquiries succeeds with
a body `{status: "ok", id}` where `id` is the string form of the
store-assigned identifier of the newly created document (visible as the
`_id` of the document appended to the store), and that string is
non-empty. -/
theorem post_inquiries_valid_ok (payload : Doc) (store : Store) (q : Inquiry)
    (h : parseInquiry payload = some q) :
    post_inquiries payload store =
      ((200, [("status", Value.str "ok"),
              ("id", Value.str (pyStr (some (Value.oid store.nextId))))]),
       { inquiries := store.inquiries ++
           [inquiryFields q ++ [("_id", Value.oid store.nextId)]],
         nextId := store.nextId + 1 }) ∧
    pyStr (some (Value.oid store.nextId)) ≠ "" := by
  constructor
  · simp only [post_inquiries, h, create_document, create_inquiry]
  · exact pyStr_oid_ne_empty store.nextId

/-- Witness for C1: the spec's worked example payload, posted to an empty
store. -/
theorem post_inquiries_valid_ok_witness :
    post_inquiries
        [("name", Value.str "Ada"), ("contact", Value.str "ada@example.com"),
         ("message", Value.str "Catering for 20")]
        { inquiries := [], nextId := 0 } =
      ((200, [("status", Value.str "ok"),
              ("id", Value.str (pyStr (some (Value.oid 0))))]),
       { inquiries := [] ++
           [inquiryFields ⟨"Ada", "ada@example.com", "Catering for 20"⟩ ++
             [("_id", Value.oid 0)]],
         nextId := 0 + 1 }) ∧
    pyStr (some (Value.oid 0)) ≠ "" :=
  post_inquiries_valid_ok
    [("name", Value.str "Ada"), ("contact", Value.str "ada@example.com"),
     ("message", Value.str "Catering for 20")]
    { inquiries := [], nextId := 0 }
    ⟨"Ada", "ada@example.com", "Catering for 20"⟩ rfl

/-- C2 counterexample: the claim "every other field of the record is
unchanged" fails for a document that already carries an `id` field.
For `{"id": "x", "_id": ObjectId(5)}`, the field `id` (which is not
`_id`) held `"x"` before normalization and does not afterwards: the
dict assignment `d["id"] = str(doc.get("_id"))` overwrites it. -/
theorem normalize_overwrites_id_counterexample :
    List.lookup "id" [("id", Value.str "x"), ("_id", Value.oid 5)] =
      some (Value.str "x") ∧
    "id" ≠ "_id" ∧
    List.lookup "id"
        (normalize [("id", Value.str "x"), ("_id", Value.oid 5)]) ≠
      some (Value.str "x") := by
  refine ⟨rfl, by decide, by decide⟩

/-- C2 amended: GET /api/inquiries maps `normalize` over the documents
returned by `get_documents`; in each record the `_id` field is removed,
the `id` field holds the string form of the original `_id`, and every
field other than `_id` and `id` is unchanged (a pre-existing `id` field
is overwritten by the normalized identifier). -/
theorem list_inquiries_normalizes (docs : List Doc) (doc : Doc) (k : String)
    (h1 : k ≠ "_id") (h2 : k ≠ "id") :
    list_inquiries (Except.ok docs) = Except.ok (docs.map normalize) ∧
    List.lookup "_id" (normalize doc) = Option.none ∧
    List.lookup "id" (normalize doc) =
      some (Value.str (pyStr (List.lookup "_id" doc))) ∧
    List.lookup k (normalize doc) = List.lookup k doc :=
  ⟨rfl, normalize_lookup_store_id doc, normalize_lookup_id doc,
   normalize_lookup_other doc k h1 h2⟩

/-- Witness for the amended C2: a stored inquiry document, with its
`name` field as the untouched field. -/
theorem list_inquiries_normalizes_witness :
    list_inquiries (Except.ok [[("name", Value.str "Ada"),
        ("_id", Value.oid 7)]]) =
      Except.ok ([[("name", Value.str "Ada"), ("_id", Value.oid 7)]].map
        normalize) ∧
    List.lookup "_id"
        (normalize [("name", Value.str "Ada"), ("_id", Value.oid 7)]) =
      Option.none ∧
    List.lookup "id"
        (normalize [("name", Value.str "Ada"), ("_id", Value.oid 7)]) =
      some (Value.str (pyStr (List.lookup "_id"
        [("name", Value.str "Ada"), ("_id", Value.oid 7)]))) ∧
    List.lookup "name"
        (normalize [("name", Value.str "Ada"), ("_id", Value.oid 7)]) =
      List.lookup "name" [("name", Value.str "Ada"), ("_id", Value.oid 7)] :=
  list_inquiries_normalizes
    [[("name", Value.str "Ada"), ("_id", Value.oid 7)]]
    [("name", Value.str "Ada"), ("_id", Value.oid 7)]
    "name" (by decide) (by decide)

/-- C3: GET /api/menu is deterministic and idempotent: on any server
state it returns the full static catalog MENU_DATA unchanged, leaves the
state untouched, and a second call returns the same content. -/
theorem get_menu_static (s : Store) :
    (get_menu s).1 = MENU_DATA ∧
    (get_menu s).2 = s ∧
    (get_menu (get_menu s).2).1 = (get_menu s).1 :=
  ⟨rfl, rfl, rfl⟩

/-- The diagnostic the `database` field of the GET /test body carries in
each database-module state: every failure state is described in the body
rather than raised. -/
def describesDbState (dbs : DbState) (s : String) : Prop :=
  match dbs with
  | DbState.importError =>
      s = "❌ Database module not found (run enable-database first)"
  | DbState.raisesOnImport msg => s = "❌ Error: " ++ msg.take 50
  | DbState.dbNone => s = "⚠️  Available but not initialized"
  | DbState.live _ _ (Except.ok _) => s = "✅ Connected & Working"
  | DbState.live _ _ (Except.error e) =>
      s = "⚠️  Connected but Error: " ++ e.take 50

/-- C4: GET /test never fails: for every database-module state
(import failure, unconfigured, None handle, or a handle whose collection
listing raises) and every environment, the route returns 200 with a
diagnostic body whose `database` field describes the state, and no
exception escapes. -/
theorem test_route_never_fails (dbs : DbState) (env : Env) :
    test_route dbs env = Except.ok (200, test_database dbs env) ∧
    (test_database dbs env).backend = "✅ Running" ∧
    describesDbState dbs (test_database dbs env).database := by
  refine ⟨rfl, ?_, ?_⟩
  · cases dbs with
    | importError => rfl
    | raisesOnImport msg => rfl
    | dbNone => rfl
    | live hn nm lr => cases lr with
      | ok cols => rfl
      | error e => rfl
  · cases dbs with
    | importError => rfl
    | raisesOnImport msg => rfl
    | dbNone => rfl
    | live hn nm lr => cases lr with
      | ok cols => rfl
      | error e => rfl

/-- C5: a POST /api/inquiries body that fails Inquiry validation yields
a 422 client error and leaves the store exactly as it was: the handler,
and hence create_document, is never entered. -/
theorem post_inquiries_invalid_422 (payload : Doc) (store : Store)
    (h : parseInquiry payload = Option.none) :
    (post_inquiries payload store).1.1 = 422 ∧
    (post_inquiries payload store).2 = store := by
  have hr : post_inquiries payload store =
      ((422, [("detail", Value.str "validation error")]), store) := by
    simp only [post_inquiries, h]
  rw [hr]
  exact ⟨rfl, rfl⟩

/-- Witness for C5: a payload missing the contact and message fields,
posted to a store holding one document. -/
theorem post_inquiries_invalid_422_witness :
    (post_inquiries [("name", Value.str "Ada")]
        { inquiries := [[("_id", Value.oid 0)]], nextId := 1 }).1.1 = 422 ∧
    (post_inquiries [("name", Value.str "Ada")]
        { inquiries := [[("_id", Value.oid 0)]], nextId := 1 }).2 =
      { inquiries := [[("_id", Value.oid 0)]], nextId := 1 } :=
  post_inquiries_invalid_422 [("name", Value.str "Ada")]
    { inquiries := [[("_id", Value.oid 0)]], nextId := 1 } rfl

/-- C6: when the store call raises, each handler converts the exception
into an HTTPException with status 500 whose detail is the original
message text, for POST and GET alike; the exception never escapes in any
other form. -/
theorem store_failure_yields_500 (msg : String) :
    create_inquiry (Except.error msg) =
      Except.error { status_code := 500, detail := msg } ∧
    list_inquiries (Except.error msg) =
      Except.error { status_code := 500, detail := msg } :=
  ⟨rfl, rfl⟩

/-- C7: GET /api/inquiries without a limit parameter runs the handler at
its default limit 10, so the response holds at most 10 records whatever
the store contains. -/
theorem default_limit_at_most_ten (store : Store) :
    get_inquiries_default store =
      list_inquiries (Except.ok (get_documents store 10)) ∧
    ∃ ds, get_inquiries_default store = Except.ok ds ∧ ds.length ≤ 10 := by
  refine ⟨rfl, (get_documents store 10).map normalize, rfl, ?_⟩
  rw [List.length_map, get_documents]
  exact List.length_take_le 10 store.inquiries

/-- C8: GET /api/inquiries?limit=0 returns the empty list. -/
theorem limit_zero_empty (store : Store) :
    get_inquiries 0 store = Except.ok [] := rfl

/-- C9: a document without a `_id` key, or whose `_id` is None, is still
normalized: its `id` field is the literal string "None", a non-empty
string that is no store-assigned identifier. -/
theorem normalize_missing_store_id (doc : Doc)
    (h : List.lookup "_id" doc = Option.none ∨
         List.lookup "_id" doc = some Value.none) :
    List.lookup "id" (normalize doc) = some (Value.str "None") ∧
    ("None" : String) ≠ "" := by
  refine ⟨?_, by decide⟩
  rcases h with h | h
  · rw [normalize_lookup_id doc, h]
    rfl
  · rw [normalize_lookup_id doc, h]
    rfl

/-- Witness for C9: a document with no `_id` key at all. -/
theorem normalize_missing_store_id_witness :
    List.lookup "id" (normalize [("name", Value.str "Ada")]) =
      some (Value.str "None") ∧
    ("None" : String) ≠ "" :=
  normalize_missing_store_id [("name", Value.str "Ada")] (Or.inl rfl)

/-- C10 counterexample: the final `database_url` field is not determined
by the presence of the DATABASE_URL variable alone. With DATABASE_URL
present but empty, `os.getenv` is falsy and the field reads "❌ Not Set"
although the variable is present. -/
theorem test_env_presence_counterexample :
    (Env.mk (some "") (some "mongo")).database_url ≠ Option.none ∧
    (test_database DbState.dbNone
        (Env.mk (some "") (some "mongo"))).database_url ≠
      Value.str "✅ Set" := by
  exact ⟨by decide, by decide⟩

/-- C10 amended: in every GET /test response the final `database_url`
and `database_name` fields are determined solely by the truthiness of
the DATABASE_URL and DATABASE_NAME environment variables (set to a
non-empty string → "✅ Set", otherwise "❌ Not Set"), independent of the
database-module state and overwriting any value assigned to those fields
earlier in the handler. -/
theorem test_env_flags_overwrite (dbs dbs2 : DbState) (env : Env) :
    (test_database dbs env).database_url =
      (test_database dbs2 env).database_url ∧
    (test_database dbs env).database_name =
      (test_database dbs2 env).database_name ∧
    (test_database dbs env).database_url =
      Value.str
        (if getenvTruthy env.database_url then "✅ Set" else "❌ Not Set") ∧
    (test_database dbs env).database_name =
      Value.str
        (if getenvTruthy env.database_name then "✅ Set" else "❌ Not Set") :=
  ⟨rfl, rfl, rfl, rfl⟩

end Choppinzskys
